import Mathlib

/-!
Shallow embedding of the geocoding client of `src/lib/geocode.ts` (bundled in
`src/components/GeoBogota.tsx` after the component): provider resolution,
forward search and reverse lookup against the free provider (Nominatim) and
the commercial provider (Google), together with the shared status-to-message
table.  Environment credentials become an explicit `Config`; the network
becomes an explicit `NetworkOracle` of responses; every adapter returns the
list of HTTP requests it issued next to its `Except` outcome, so that
"no network call is attempted" is directly statable.
-/

deriving instance DecidableEq for Except

namespace GeoBogota

/-- `export type Provider = 'nominatim' | 'google'`. -/
inductive Provider
  | nominatim
  | google
deriving DecidableEq

/-- The environment credentials read by the adapters (`import.meta.env`). -/
structure Config where
  VITE_GOOGLE_KEY : Option String
  VITE_NOMINATIM_EMAIL : Option String

/-- JS truthiness of an env string: `undefined` and `""` are falsy. -/
def truthy : Option String → Bool
  | none => false
  | some v => v != ""

/-- One item of the Nominatim `/search` JSON array; the fields the code reads.
`lat`/`lon` are kept as the wire strings (jsonv2 sends them as strings);
`place_id` is the already-stringified native id when present. -/
structure NominatimItem where
  place_id : Option String
  lat : String
  lon : String
  display_name : String
deriving DecidableEq

/-- The Nominatim `/reverse` JSON object; every field the code touches may be
absent. -/
structure NominatimReversePayload where
  place_id : Option String
  display_name : Option String
  lat : Option String
  lon : Option String
deriving DecidableEq

structure GoogleLocation where
  lat : Rat
  lng : Rat
deriving DecidableEq

structure GoogleGeometry where
  location : GoogleLocation
deriving DecidableEq

/-- One element of a Google geocode response `results` array. -/
structure GoogleResult where
  geometry : GoogleGeometry
  formatted_address : String
  place_id : Option String
deriving DecidableEq

/-- One element of the Google autocomplete `predictions` array. -/
structure Prediction where
  place_id : String
  description : String
deriving DecidableEq

/-- Google autocomplete JSON body. -/
structure AutocompletePayload where
  status : Option String
  predictions : Option (List Prediction)
deriving DecidableEq

/-- Google geocode JSON body (detail phase and reverse lookup). -/
structure GeocodePayload where
  status : Option String
  results : Option (List GoogleResult)
deriving DecidableEq

/-- The `raw` field of a result: the unmodified provider fragment. -/
inductive RawPayload
  | nominatimItem (item : NominatimItem)
  | nominatimReverse (payload : NominatimReversePayload)
  | googleResult (result : GoogleResult)
deriving DecidableEq

/-- `interface GeocodeResult`.  Coordinates are idealized as exact rationals. -/
structure GeocodeResult where
  id : String
  label : String
  lat : Rat
  lng : Rat
  raw : RawPayload
  provider : Provider
  placeId : Option String
deriving DecidableEq

/-- An HTTP response as the code observes it: `ok`, `status`, parsed body. -/
structure HttpResponse (α : Type) where
  ok : Bool
  status : Nat
  body : α

/-- The network, as a deterministic oracle: the response each endpoint would
return for the single call the top-level operations make to it (the Google
detail endpoint is keyed by the `place_id` sent). -/
structure NetworkOracle where
  nominatimSearchResp : HttpResponse (List NominatimItem)
  nominatimReverseResp : HttpResponse (Option NominatimReversePayload)
  googleAutocompleteResp : HttpResponse AutocompletePayload
  googleDetailResp : String → HttpResponse GeocodePayload
  googleReverseResp : HttpResponse GeocodePayload

/-- A record of one issued `fetch`, by endpoint and distinguishing payload. -/
inductive Request
  | nominatimSearch (q : String) (limit : Nat)
  | nominatimReverse (lat lng : Rat)
  | googleAutocomplete (input : String)
  | googleDetail (place_id : String)
  | googleReverse (lat lng : Rat)
deriving DecidableEq

def DEFAULT_LIMIT : Nat := 5

/-- `resolveProvider`: explicit preference wins; otherwise the commercial
provider exactly when its key is truthy. -/
def resolveProvider (cfg : Config) (preferred : Option Provider) : Provider :=
  match preferred with
  | some p => p
  | none => if truthy cfg.VITE_GOOGLE_KEY then Provider.google else Provider.nominatim

/-- `getNominatimEmail`: the configured contact email, or the configuration
error (`if (!email) throw`). -/
def getNominatimEmail (cfg : Config) : Except String String :=
  match cfg.VITE_NOMINATIM_EMAIL with
  | some email =>
      if email = "" then
        Except.error "Falta configurar VITE_NOMINATIM_EMAIL para usar Nominatim."
      else Except.ok email
  | none => Except.error "Falta configurar VITE_NOMINATIM_EMAIL para usar Nominatim."

/-- Digit run to a natural number (helper for the decimal parser). -/
def digitsVal (cs : List Char) : Nat :=
  cs.foldl (fun a c => a * 10 + (c.toNat - 48)) 0

/-- Split a character list at the first dot. -/
def splitFrac : List Char → List Char × List Char
  | [] => ([], [])
  | c :: cs =>
      if c = '.' then ([], cs)
      else
        let p := splitFrac cs
        (c :: p.1, p.2)

/-- Modelled: JS `Number()` restricted to the plain decimal strings Nominatim
sends (optional sign, digits, optional fraction); other input shapes are not
modelled. -/
def parseDecimal (s : String) : Rat :=
  let neg : Bool :=
    match s.data with
    | '-' :: _ => true
    | _ => false
  let cs := if neg then s.data.drop 1 else s.data
  let p := splitFrac cs
  let mag : Rat :=
    mkRat ((digitsVal p.1 * 10 ^ p.2.length + digitsVal p.2 : Nat) : Int) (10 ^ p.2.length)
  if neg then -mag else mag

/-- Left-pad a digit string with zeros to six characters. -/
def padSix (s : String) : String :=
  String.mk (List.replicate (6 - s.length) '0') ++ s

/-- JS `Number.prototype.toFixed(6)`, idealized to exact decimal rounding of
the rational value (half away from zero); computed on the reduced
numerator/denominator so `⌊x * 10^6 + 1/2⌋` becomes one natural division. -/
def toFixed6 (q : Rat) : String :=
  let sign := if q.num < 0 then "-" else ""
  let a : Nat := (2 * q.num.natAbs * 1000000 + q.den) / (2 * q.den)
  sign ++ toString (a / 1000000) ++ "." ++ padSix (toString (a % 1000000))

/-- JS whitespace test for `String.prototype.trim`, idealized to the ASCII
whitespace that can occur in an address query. -/
def isJsSpace (c : Char) : Bool :=
  c = ' ' || c = '\t' || c = '\n' || c = '\r'

def dropLeading : List Char → List Char
  | [] => []
  | c :: cs => if isJsSpace c then dropLeading cs else c :: cs

/-- `String.prototype.trim`. -/
def jsTrim (s : String) : String :=
  String.mk (List.reverse (dropLeading (List.reverse (dropLeading s.data))))

/-- Rendering of an optional payload field in a JS template literal:
an absent field prints as `undefined`. -/
def jsOptField : Option String → String
  | some s => s
  | none => "undefined"

/-- Modelled: JS template-literal rendering of a number.  The exact JS decimal
formatting is not reproduced; no verified claim inspects this string. -/
def ratTemplate (q : Rat) : String :=
  toString q.num ++ "/" ++ toString q.den

/-- The candidate `searchWithNominatim` builds from one payload item:
native id, else the raw coordinate-pair string. -/
def nominatimId (item : NominatimItem) : String :=
  match item.place_id with
  | some pid => pid
  | none => item.lat ++ "," ++ item.lon

def nominatimConvert (item : NominatimItem) : GeocodeResult :=
  { id := nominatimId item
    label := item.display_name
    lat := parseDecimal item.lat
    lng := parseDecimal item.lon
    raw := RawPayload.nominatimItem item
    provider := Provider.nominatim
    placeId := none }

/-- `searchWithNominatim`: credential check, one GET, 429 distinguished,
payload mapped in order. -/
def searchWithNominatim (cfg : Config) (net : NetworkOracle) (query : String)
    (limit : Nat) : List Request × Except String (List GeocodeResult) :=
  match getNominatimEmail cfg with
  | Except.error e => ([], Except.error e)
  | Except.ok _ =>
      let req := Request.nominatimSearch query limit
      let response := net.nominatimSearchResp
      if response.ok = false then
        if response.status = 429 then
          ([req], Except.error "Se alcanzó el límite de consultas de Nominatim. Intenta más tarde.")
        else ([req], Except.error "No se pudo buscar la dirección con Nominatim.")
      else ([req], Except.ok (response.body.map nominatimConvert))

/-- The candidate `reverseWithNominatim` builds from a present payload:
each absent payload field falls back exactly as the code's `??` chain does. -/
def nominatimReverseConvert (lat lng : Rat) (payload : NominatimReversePayload) :
    GeocodeResult :=
  { id := match payload.place_id with
      | some pid => pid
      | none => jsOptField payload.lat ++ "," ++ jsOptField payload.lon
    label := match payload.display_name with
      | some name => name
      | none => toFixed6 lat ++ ", " ++ toFixed6 lng
    lat := match payload.lat with
      | some s => parseDecimal s
      | none => lat
    lng := match payload.lon with
      | some s => parseDecimal s
      | none => lng
    raw := RawPayload.nominatimReverse payload
    provider := Provider.nominatim
    placeId := none }

/-- `reverseWithNominatim`: soft failure — any non-ok response or missing
payload yields `none`; label and coordinates fall back as the code does. -/
def reverseWithNominatim (cfg : Config) (net : NetworkOracle) (lat lng : Rat) :
    List Request × Except String (Option GeocodeResult) :=
  match getNominatimEmail cfg with
  | Except.error e => ([], Except.error e)
  | Except.ok _ =>
      let req := Request.nominatimReverse lat lng
      let response := net.nominatimReverseResp
      if response.ok = false then ([req], Except.ok none)
      else
        match response.body with
        | none => ([req], Except.ok none)
        | some payload => ([req], Except.ok (some (nominatimReverseConvert lat lng payload)))

/-- `googleStatusMessage`: the fixed status-to-message table (argument is
`status?: string`). -/
def googleStatusMessage (status : Option String) : String :=
  match status with
  | some "ZERO_RESULTS" => "No se encontraron resultados en Google para esa búsqueda."
  | some "OVER_QUERY_LIMIT" => "Se alcanzó el límite de cuota de Google Maps."
  | some "REQUEST_DENIED" => "La API de Google Maps rechazó la solicitud. Revisa la clave y restricciones."
  | some "INVALID_REQUEST" => "Solicitud inválida enviada a Google Maps."
  | some "UNKNOWN_ERROR" => "Error desconocido en la API de Google Maps. Intenta de nuevo."
  | _ => "No se pudo completar la petición con Google Maps."

/-- One detail-phase call of `searchWithGoogle` for one retained prediction. -/
def googleDetail (net : NetworkOracle) (prediction : Prediction) :
    Except String GeocodeResult :=
  let placeId := prediction.place_id
  let geocodeResponse := net.googleDetailResp placeId
  if geocodeResponse.ok = false then
    Except.error "No se pudo geocodificar la dirección seleccionada."
  else
    let geocodePayload := geocodeResponse.body
    match geocodePayload.status, geocodePayload.results.getD [] with
    | some "OK", result :: _ =>
        Except.ok
          { id := placeId
            label := prediction.description
            lat := result.geometry.location.lat
            lng := result.geometry.location.lng
            raw := RawPayload.googleResult result
            provider := Provider.google
            placeId := some placeId }
    | s, _ => Except.error (googleStatusMessage s)

/-- `Promise.all` over the detail calls, idealized deterministically: results
collected in original prediction order, the first failing index's error
failing the whole batch. -/
def collectDetails (net : NetworkOracle) : List Prediction → Except String (List GeocodeResult)
  | [] => Except.ok []
  | p :: rest =>
      match googleDetail net p with
      | Except.error e => Except.error e
      | Except.ok r =>
          match collectDetails net rest with
          | Except.error e => Except.error e
          | Except.ok rs => Except.ok (r :: rs)

/-- `searchWithGoogle`: key check, autocomplete phase, truncation to `limit`,
concurrent detail phase. -/
def searchWithGoogle (cfg : Config) (net : NetworkOracle) (query : String)
    (limit : Nat) : List Request × Except String (List GeocodeResult) :=
  if truthy cfg.VITE_GOOGLE_KEY = false then
    ([], Except.error "Falta configurar VITE_GOOGLE_KEY para usar Google Maps.")
  else
    let autoReq := Request.googleAutocomplete query
    let autocompleteResponse := net.googleAutocompleteResp
    if autocompleteResponse.ok = false then
      ([autoReq], Except.error "No se pudo obtener sugerencias de Google Places.")
    else
      let autocompletePayload := autocompleteResponse.body
      if autocompletePayload.status = some "OK" ∨ autocompletePayload.status = some "ZERO_RESULTS" then
        let predictions := autocompletePayload.predictions.getD []
        if predictions.isEmpty then ([autoReq], Except.ok [])
        else
          let sliced := predictions.take limit
          (autoReq :: sliced.map (fun p => Request.googleDetail p.place_id),
            collectDetails net sliced)
      else ([autoReq], Except.error (googleStatusMessage autocompletePayload.status))

/-- `reverseWithGoogle`: soft failure on non-ok HTTP, non-OK status or empty
results; on success the coordinates echo the input. -/
def reverseWithGoogle (cfg : Config) (net : NetworkOracle) (lat lng : Rat) :
    List Request × Except String (Option GeocodeResult) :=
  if truthy cfg.VITE_GOOGLE_KEY = false then
    ([], Except.error "Falta configurar VITE_GOOGLE_KEY para usar Google Maps.")
  else
    let req := Request.googleReverse lat lng
    let response := net.googleReverseResp
    if response.ok = false then ([req], Except.ok none)
    else
      let payload := response.body
      match payload.status, payload.results.getD [] with
      | some "OK", result :: _ =>
          ([req], Except.ok (some
            { id := match result.place_id with
                | some pid => pid
                | none => ratTemplate lat ++ "," ++ ratTemplate lng
              label := result.formatted_address
              lat := lat
              lng := lng
              raw := RawPayload.googleResult result
              provider := Provider.google
              placeId := result.place_id }))
      | _, _ => ([req], Except.ok none)

/-- `searchAddress`: resolve the provider, short-circuit blank queries,
dispatch to the adapter. -/
def searchAddress (cfg : Config) (net : NetworkOracle) (query : String)
    (preferred : Option Provider) (limit : Nat) :
    List Request × Except String (List GeocodeResult) :=
  let provider := resolveProvider cfg preferred
  if jsTrim query = "" then ([], Except.ok [])
  else if provider = Provider.google then searchWithGoogle cfg net query limit
  else searchWithNominatim cfg net query limit

/-- `reverseGeocode`: resolve the provider and dispatch. -/
def reverseGeocode (cfg : Config) (net : NetworkOracle) (lat lng : Rat)
    (preferred : Option Provider) :
    List Request × Except String (Option GeocodeResult) :=
  let provider := resolveProvider cfg preferred
  if provider = Provider.google then reverseWithGoogle cfg net lat lng
  else reverseWithNominatim cfg net lat lng

/-- The configuration-error message of each provider's adapter. -/
def configErrorMessage : Provider → String
  | Provider.nominatim => "Falta configurar VITE_NOMINATIM_EMAIL para usar Nominatim."
  | Provider.google => "Falta configurar VITE_GOOGLE_KEY para usar Google Maps."

/-- The credential a provider's adapter requires. -/
def credentialOf (cfg : Config) : Provider → Option String
  | Provider.nominatim => cfg.VITE_NOMINATIM_EMAIL
  | Provider.google => cfg.VITE_GOOGLE_KEY

theorem getNominatimEmail_not_configured (cfg : Config)
    (h : truthy cfg.VITE_NOMINATIM_EMAIL = false) :
    getNominatimEmail cfg =
      Except.error "Falta configurar VITE_NOMINATIM_EMAIL para usar Nominatim." := by
  unfold getNominatimEmail
  cases hm : cfg.VITE_NOMINATIM_EMAIL with
  | none => rfl
  | some v =>
      rw [hm] at h
      simp [truthy] at h
      simp [h]

theorem getNominatimEmail_configured (cfg : Config)
    (h : truthy cfg.VITE_NOMINATIM_EMAIL = true) :
    ∃ email, getNominatimEmail cfg = Except.ok email := by
  unfold getNominatimEmail
  cases hm : cfg.VITE_NOMINATIM_EMAIL with
  | none => rw [hm] at h; simp [truthy] at h
  | some v =>
      rw [hm] at h
      simp [truthy] at h
      exact ⟨v, by simp [h]⟩

theorem searchWithNominatim_ok (cfg : Config) (net : NetworkOracle) (q : String)
    (limit : Nat) (rs : List GeocodeResult)
    (h : (searchWithNominatim cfg net q limit).2 = Except.ok rs) :
    rs = net.nominatimSearchResp.body.map nominatimConvert := by
  simp only [searchWithNominatim] at h
  split at h
  · simp at h
  · split at h
    · split at h <;> simp at h
    · simp at h
      exact h.symm

theorem googleDetail_ok_id (net : NetworkOracle) (p : Prediction) (r : GeocodeResult)
    (h : googleDetail net p = Except.ok r) : r.id = p.place_id := by
  simp only [googleDetail] at h
  split at h
  · simp at h
  · split at h
    · simp at h
      rw [← h]
    · simp at h

theorem collectDetails_ok_pointwise (net : NetworkOracle) :
    ∀ (l : List Prediction) (rs : List GeocodeResult),
      collectDetails net l = Except.ok rs →
      ∀ i : Nat, (l[i]?).map (googleDetail net) = (rs[i]?).map Except.ok
  | [], rs, h, i => by
      simp [collectDetails] at h
      subst h
      simp
  | p :: rest, rs, h, i => by
      simp only [collectDetails] at h
      cases hd : googleDetail net p with
      | error e => rw [hd] at h; simp at h
      | ok r =>
          rw [hd] at h
          cases ht : collectDetails net rest with
          | error e => rw [ht] at h; simp at h
          | ok rs2 =>
              rw [ht] at h
              simp at h
              subst h
              cases i with
              | zero => simp [hd]
              | succ n => simpa using collectDetails_ok_pointwise net rest rs2 ht n

theorem collectDetails_ok_ids (net : NetworkOracle) :
    ∀ (l : List Prediction) (rs : List GeocodeResult),
      collectDetails net l = Except.ok rs →
      rs.map (fun r => r.id) = l.map (fun p => p.place_id)
  | [], rs, h => by
      simp [collectDetails] at h
      subst h
      simp
  | p :: rest, rs, h => by
      simp only [collectDetails] at h
      cases hd : googleDetail net p with
      | error e => rw [hd] at h; simp at h
      | ok r =>
          rw [hd] at h
          cases ht : collectDetails net rest with
          | error e => rw [ht] at h; simp at h
          | ok rs2 =>
              rw [ht] at h
              simp at h
              subst h
              simp [googleDetail_ok_id net p r hd, collectDetails_ok_ids net rest rs2 ht]

theorem collectDetails_first_error (net : NetworkOracle) (p : Prediction) (e : String) :
    ∀ (l₁ l₂ : List Prediction),
      (∀ q ∈ l₁, ∃ r, googleDetail net q = Except.ok r) →
      googleDetail net p = Except.error e →
      collectDetails net (l₁ ++ p :: l₂) = Except.error e
  | [], l₂, _, hf => by simp [collectDetails, hf]
  | q :: l₁, l₂, hok, hf => by
      obtain ⟨r, hr⟩ := hok q (List.mem_cons_self q l₁)
      have ih := collectDetails_first_error net p e l₁ l₂
        (fun x hx => hok x (List.mem_cons_of_mem q hx)) hf
      simp [collectDetails, hr, ih]

theorem searchWithGoogle_ok_collect (cfg : Config) (net : NetworkOracle) (q : String)
    (limit : Nat) (gs : List GeocodeResult)
    (h : (searchWithGoogle cfg net q limit).2 = Except.ok gs) :
    collectDetails net ((net.googleAutocompleteResp.body.predictions.getD []).take limit) =
      Except.ok gs := by
  simp only [searchWithGoogle] at h
  split at h
  · simp at h
  · split at h
    · simp at h
    · split at h
      · split at h
        · rename_i hempty
          simp at h
          rw [List.isEmpty_iff.mp hempty]
          simp [collectDetails, ← h]
        · simpa using h
      · simp at h

/-- C4: the provider resolver returns an explicit preference unchanged, and
with no preference returns the commercial provider exactly when the
commercial credential is configured (truthy), the free provider otherwise;
it is a total pure function. -/
theorem resolveProvider_characterization (cfg : Config) (preferred : Option Provider) :
    resolveProvider cfg preferred =
      preferred.getD
        (if truthy cfg.VITE_GOOGLE_KEY then Provider.google else Provider.nominatim) := by
  cases preferred <;> rfl

/-- C10: a query whose trimmed form is empty makes `searchAddress` return the
empty sequence at once — no request is issued and no configuration error is
raised, whatever the configuration. -/
theorem searchAddress_blank_query (cfg : Config) (net : NetworkOracle) (q : String)
    (preferred : Option Provider) (limit : Nat) (h : jsTrim q = "") :
    searchAddress cfg net q preferred limit = ([], Except.ok []) := by
  simp [searchAddress, h]

def cfgNoCreds : Config := ⟨none, none⟩

def netUnused : NetworkOracle :=
  ⟨⟨true, 200, []⟩, ⟨true, 200, none⟩, ⟨true, 200, ⟨some "OK", none⟩⟩,
   fun _ => ⟨true, 200, ⟨some "OK", none⟩⟩, ⟨true, 200, ⟨some "OK", none⟩⟩⟩

theorem searchAddress_blank_query_witness :
    jsTrim "   " = "" ∧ searchAddress cfgNoCreds netUnused "   " none 5 = ([], Except.ok []) :=
  ⟨by decide, searchAddress_blank_query cfgNoCreds netUnused "   " none 5 (by decide)⟩

/-- C2: for a non-blank query, dispatching to a provider whose required
credential is not configured fails with that provider's configuration error
and issues no network request. -/
theorem searchAddress_missing_credential (cfg : Config) (net : NetworkOracle) (q : String)
    (preferred : Option Provider) (limit : Nat)
    (hq : jsTrim q ≠ "")
    (hcred : truthy (credentialOf cfg (resolveProvider cfg preferred)) = false) :
    searchAddress cfg net q preferred limit =
      ([], Except.error (configErrorMessage (resolveProvider cfg preferred))) := by
  unfold searchAddress
  rw [if_neg hq]
  cases hp : resolveProvider cfg preferred with
  | google =>
      rw [hp] at hcred
      simp only [credentialOf] at hcred
      simp [searchWithGoogle, hcred, configErrorMessage]
  | nominatim =>
      rw [hp] at hcred
      simp only [credentialOf] at hcred
      simp [searchWithNominatim, getNominatimEmail_not_configured cfg hcred, configErrorMessage]

theorem searchAddress_missing_credential_witness :
    jsTrim "Cra 7" ≠ "" ∧
      searchAddress cfgNoCreds netUnused "Cra 7" none 5 =
        ([], Except.error "Falta configurar VITE_NOMINATIM_EMAIL para usar Nominatim.") :=
  ⟨by decide,
    searchAddress_missing_credential cfgNoCreds netUnused "Cra 7" none 5 (by decide) (by decide)⟩

def cfgBoth : Config := ⟨some "key", some "maps@example.com"⟩

def gResultA : GoogleResult := ⟨⟨⟨mkRat 46 10, mkRat (-7404) 100⟩⟩, "Calle 100, Bogotá", some "gA"⟩

def gResultB : GoogleResult := ⟨⟨⟨mkRat 47 10, mkRat (-7410) 100⟩⟩, "Carrera 7, Bogotá", some "gB"⟩

def detailOkA : HttpResponse GeocodePayload := ⟨true, 200, ⟨some "OK", some [gResultA]⟩⟩

def detailOkB : HttpResponse GeocodePayload := ⟨true, 200, ⟨some "OK", some [gResultB]⟩⟩

def detailHttpFail : HttpResponse GeocodePayload := ⟨false, 500, ⟨none, none⟩⟩

def predA : Prediction := ⟨"pA", "Calle 100"⟩

def predB : Prediction := ⟨"pB", "Carrera 7"⟩

def predC : Prediction := ⟨"pC", "Avenida 68"⟩

def itemA : NominatimItem := ⟨some "111", "4.60", "-74.08", "Calle 100, Bogotá"⟩

def itemB : NominatimItem := ⟨none, "4.65", "-74.10", "Carrera 7, Bogotá"⟩

/-- C1: with the commercial key configured and a successful prediction phase,
one failing detail call in the retained slice (all earlier detail calls
succeeding) makes the whole forward search fail with exactly that first
failure — no partial candidate sequence is exposed. -/
theorem searchWithGoogle_detail_failure_fails_whole (cfg : Config) (net : NetworkOracle)
    (q : String) (limit : Nat) (l₁ l₂ : List Prediction) (p : Prediction) (e : String)
    (hkey : truthy cfg.VITE_GOOGLE_KEY = true)
    (hok : net.googleAutocompleteResp.ok = true)
    (hstatus : net.googleAutocompleteResp.body.status = some "OK")
    (hsliced : (net.googleAutocompleteResp.body.predictions.getD []).take limit = l₁ ++ p :: l₂)
    (hfirst : ∀ x ∈ l₁, ∃ r, googleDetail net x = Except.ok r)
    (hfail : googleDetail net p = Except.error e) :
    (searchWithGoogle cfg net q limit).2 = Except.error e := by
  have hne : (net.googleAutocompleteResp.body.predictions.getD []).isEmpty = false := by
    cases hl : net.googleAutocompleteResp.body.predictions.getD [] with
    | nil => rw [hl] at hsliced; simp at hsliced
    | cons a as => simp
  simp [searchWithGoogle, hkey, hok, hstatus, hne]
  rw [hsliced]
  exact collectDetails_first_error net p e l₁ l₂ hfirst hfail

def netC1 : NetworkOracle :=
  ⟨⟨true, 200, []⟩, ⟨true, 200, none⟩,
   ⟨true, 200, ⟨some "OK", some [predA, predB, predC]⟩⟩,
   fun pid => if pid = "pB" then detailHttpFail else detailOkA,
   detailOkA⟩

theorem searchWithGoogle_detail_failure_fails_whole_witness :
    (netC1.googleAutocompleteResp.body.predictions.getD []).take 5 =
        [predA] ++ predB :: [predC] ∧
      googleDetail netC1 predB =
        Except.error "No se pudo geocodificar la dirección seleccionada." ∧
      (searchWithGoogle cfgBoth netC1 "Cra 7 # 72-41" 5).2 =
        Except.error "No se pudo geocodificar la dirección seleccionada." :=
  ⟨by decide, by decide,
    searchWithGoogle_detail_failure_fails_whole cfgBoth netC1 "Cra 7 # 72-41" 5
      [predA] [predC] predB _ (by decide) (by decide) (by decide) (by decide)
      (by
        intro x hx
        simp at hx
        subst hx
        exact ⟨⟨"pA", "Calle 100", mkRat 46 10, mkRat (-7404) 100,
          RawPayload.googleResult gResultA, Provider.google, some "pA"⟩, by decide⟩)
      (by decide)⟩

/-- C3: successful forward searches preserve provider order — the i-th
Nominatim candidate is the conversion of the i-th payload item, and the i-th
commercial candidate is the (successful) detail resolution of the i-th
retained prediction. -/
theorem search_preserves_provider_order (cfg : Config) (net : NetworkOracle) (q : String)
    (limit : Nat) :
    (∀ rs, (searchWithNominatim cfg net q limit).2 = Except.ok rs →
      ∀ i : Nat, rs[i]? = (net.nominatimSearchResp.body[i]?).map nominatimConvert)
    ∧ (∀ gs, (searchWithGoogle cfg net q limit).2 = Except.ok gs →
      ∀ i : Nat,
        ((((net.googleAutocompleteResp.body.predictions.getD []).take limit)[i]?).map
            (googleDetail net)) = (gs[i]?).map Except.ok) := by
  constructor
  · intro rs h i
    rw [searchWithNominatim_ok cfg net q limit rs h]
    simp
  · intro gs h i
    exact collectDetails_ok_pointwise net _ gs (searchWithGoogle_ok_collect cfg net q limit gs h) i

def netC3 : NetworkOracle :=
  ⟨⟨true, 200, [itemA, itemB]⟩, ⟨true, 200, none⟩,
   ⟨true, 200, ⟨some "OK", some [predA, predB]⟩⟩,
   fun pid => if pid = "pB" then detailOkB else detailOkA,
   detailOkA⟩

def googleBatchC3 : List GeocodeResult :=
  [⟨"pA", "Calle 100", mkRat 46 10, mkRat (-7404) 100,
      RawPayload.googleResult gResultA, Provider.google, some "pA"⟩,
   ⟨"pB", "Carrera 7", mkRat 47 10, mkRat (-7410) 100,
      RawPayload.googleResult gResultB, Provider.google, some "pB"⟩]

theorem search_preserves_provider_order_witness :
    ([nominatimConvert itemA, nominatimConvert itemB][1]? =
        (netC3.nominatimSearchResp.body[1]?).map nominatimConvert)
    ∧ ((((netC3.googleAutocompleteResp.body.predictions.getD []).take 5)[1]?).map
          (googleDetail netC3)) = (googleBatchC3[1]?).map Except.ok :=
  ⟨(search_preserves_provider_order cfgBoth netC3 "Cra 7" 5).1
      [nominatimConvert itemA, nominatimConvert itemB] (by decide) 1,
   (search_preserves_provider_order cfgBoth netC3 "Cra 7" 5).2 googleBatchC3 (by decide) 1⟩

/-- C5: every non-OK provider status surfaced as an error by the commercial
forward search (prediction phase or detail phase) is translated through the
one `googleStatusMessage` table; the commercial reverse lookup surfaces no
status error at all on a non-OK status (it returns no result), so the
table-translation property holds for it vacuously. -/
theorem googleStatusMessage_shared_table (cfg : Config) (net : NetworkOracle) (q : String)
    (limit : Nat) (lat lng : Rat)
    (hkey : truthy cfg.VITE_GOOGLE_KEY = true) :
    (net.googleAutocompleteResp.ok = true →
      net.googleAutocompleteResp.body.status ≠ some "OK" →
      net.googleAutocompleteResp.body.status ≠ some "ZERO_RESULTS" →
      (searchWithGoogle cfg net q limit).2 =
        Except.error (googleStatusMessage net.googleAutocompleteResp.body.status))
    ∧ (∀ p : Prediction, (net.googleDetailResp p.place_id).ok = true →
        (net.googleDetailResp p.place_id).body.status ≠ some "OK" →
        googleDetail net p =
          Except.error (googleStatusMessage (net.googleDetailResp p.place_id).body.status))
    ∧ (net.googleReverseResp.ok = true →
        net.googleReverseResp.body.status ≠ some "OK" →
        (reverseWithGoogle cfg net lat lng).2 = Except.ok none) := by
  refine ⟨?_, ?_, ?_⟩
  · intro hok h1 h2
    simp [searchWithGoogle, hkey, hok, h1, h2]
  · intro p hok hst
    simp only [googleDetail]
    rw [if_neg (by simp [hok])]
    split
    · rename_i heq _
      exact absurd heq hst
    · rfl
  · intro hok hst
    simp only [reverseWithGoogle]
    rw [if_neg (by simp [hkey])]
    rw [if_neg (by simp [hok])]
    split
    · rename_i heq _
      exact absurd heq hst
    · rfl

def netC5 : NetworkOracle :=
  ⟨⟨true, 200, []⟩, ⟨true, 200, none⟩,
   ⟨true, 200, ⟨some "REQUEST_DENIED", none⟩⟩,
   fun _ => ⟨true, 200, ⟨some "OVER_QUERY_LIMIT", none⟩⟩,
   ⟨true, 200, ⟨some "INVALID_REQUEST", none⟩⟩⟩

theorem googleStatusMessage_shared_table_witness :
    (searchWithGoogle cfgBoth netC5 "Cra 7" 5).2 =
        Except.error (googleStatusMessage netC5.googleAutocompleteResp.body.status)
    ∧ googleDetail netC5 predA =
        Except.error (googleStatusMessage (netC5.googleDetailResp predA.place_id).body.status)
    ∧ (reverseWithGoogle cfgBoth netC5 (mkRat 46 10) (mkRat (-7404) 100)).2 = Except.ok none :=
  ⟨(googleStatusMessage_shared_table cfgBoth netC5 "Cra 7" 5 (mkRat 46 10) (mkRat (-7404) 100)
      (by decide)).1 (by decide) (by decide) (by decide),
   (googleStatusMessage_shared_table cfgBoth netC5 "Cra 7" 5 (mkRat 46 10) (mkRat (-7404) 100)
      (by decide)).2.1 predA (by decide) (by decide),
   (googleStatusMessage_shared_table cfgBoth netC5 "Cra 7" 5 (mkRat 46 10) (mkRat (-7404) 100)
      (by decide)).2.2 (by decide) (by decide)⟩

/-- C7: with the credential configured, `reverseGeocode` answers "no result"
(`Except.ok none`, not an error) whenever the provider response is not a
success: for the free provider on non-success HTTP or a missing payload, for
the commercial provider on non-success HTTP, non-OK status or an empty
result set. -/
theorem reverseGeocode_soft_failure (cfg : Config) (net : NetworkOracle) (lat lng : Rat)
    (hmail : truthy cfg.VITE_NOMINATIM_EMAIL = true)
    (hkey : truthy cfg.VITE_GOOGLE_KEY = true) :
    ((net.nominatimReverseResp.ok = false ∨ net.nominatimReverseResp.body = none) →
      (reverseGeocode cfg net lat lng (some Provider.nominatim)).2 = Except.ok none)
    ∧ ((net.googleReverseResp.ok = false ∨ net.googleReverseResp.body.status ≠ some "OK"
          ∨ net.googleReverseResp.body.results.getD [] = []) →
      (reverseGeocode cfg net lat lng (some Provider.google)).2 = Except.ok none) := by
  obtain ⟨email, hemail⟩ := getNominatimEmail_configured cfg hmail
  constructor
  · rintro (hok | hbody)
    · simp [reverseGeocode, resolveProvider, reverseWithNominatim, hemail, hok]
    · by_cases hok : net.nominatimReverseResp.ok = false
      · simp [reverseGeocode, resolveProvider, reverseWithNominatim, hemail, hok]
      · simp [reverseGeocode, resolveProvider, reverseWithNominatim, hemail, hok, hbody]
  · rintro (hok | hst | hres)
    · simp [reverseGeocode, resolveProvider, reverseWithGoogle, hkey, hok]
    · by_cases hok : net.googleReverseResp.ok = false
      · simp [reverseGeocode, resolveProvider, reverseWithGoogle, hkey, hok]
      · simp only [reverseGeocode, resolveProvider, reverseWithGoogle]
        rw [if_pos (by trivial), if_neg (by simp [hkey]), if_neg hok]
        split
        · rename_i heq _
          exact absurd heq hst
        · rfl
    · by_cases hok : net.googleReverseResp.ok = false
      · simp [reverseGeocode, resolveProvider, reverseWithGoogle, hkey, hok]
      · simp only [reverseGeocode, resolveProvider, reverseWithGoogle]
        rw [if_pos (by trivial), if_neg (by simp [hkey]), if_neg hok]
        split
        · rename_i heq
          rw [hres] at heq
          simp at heq
        · rfl

def netC7 : NetworkOracle :=
  ⟨⟨true, 200, []⟩, ⟨false, 500, none⟩,
   ⟨true, 200, ⟨some "OK", none⟩⟩,
   fun _ => detailOkA,
   ⟨true, 200, ⟨some "OK", some []⟩⟩⟩

theorem reverseGeocode_soft_failure_witness :
    (reverseGeocode cfgBoth netC7 (mkRat 46486 10000) (mkRat (-740628) 10000)
        (some Provider.nominatim)).2 = Except.ok none
    ∧ (reverseGeocode cfgBoth netC7 (mkRat 46486 10000) (mkRat (-740628) 10000)
        (some Provider.google)).2 = Except.ok none :=
  ⟨(reverseGeocode_soft_failure cfgBoth netC7 (mkRat 46486 10000) (mkRat (-740628) 10000)
      (by decide) (by decide)).1 (Or.inl (by decide)),
   (reverseGeocode_soft_failure cfgBoth netC7 (mkRat 46486 10000) (mkRat (-740628) 10000)
      (by decide) (by decide)).2 (Or.inr (Or.inr (by decide)))⟩

/-- C8: a successful free-provider reverse lookup whose payload omits the
display name labels the candidate with the input coordinates formatted to six
decimal places, and an omitted payload latitude/longitude falls back to the
input coordinate. -/
theorem reverseWithNominatim_fallbacks (cfg : Config) (net : NetworkOracle) (lat lng : Rat)
    (payload : NominatimReversePayload)
    (hmail : truthy cfg.VITE_NOMINATIM_EMAIL = true)
    (hok : net.nominatimReverseResp.ok = true)
    (hbody : net.nominatimReverseResp.body = some payload)
    (hname : payload.display_name = none) :
    ∃ r, (reverseWithNominatim cfg net lat lng).2 = Except.ok (some r)
      ∧ r.label = toFixed6 lat ++ ", " ++ toFixed6 lng
      ∧ (payload.lat = none → r.lat = lat)
      ∧ (payload.lon = none → r.lng = lng) := by
  obtain ⟨email, hemail⟩ := getNominatimEmail_configured cfg hmail
  refine ⟨nominatimReverseConvert lat lng payload, ?_, ?_, ?_, ?_⟩
  · simp [reverseWithNominatim, hemail, hok, hbody]
  · simp [nominatimReverseConvert, hname]
  · intro h
    simp [nominatimReverseConvert, h]
  · intro h
    simp [nominatimReverseConvert, h]

def netC8 : NetworkOracle :=
  ⟨⟨true, 200, []⟩, ⟨true, 200, some ⟨none, none, none, none⟩⟩,
   ⟨true, 200, ⟨some "OK", none⟩⟩,
   fun _ => detailOkA,
   detailOkA⟩

theorem reverseWithNominatim_fallbacks_witness :
    (∃ r, (reverseWithNominatim cfgBoth netC8 (mkRat 46486 10000) (mkRat (-740628) 10000)).2 =
          Except.ok (some r)
        ∧ r.label = toFixed6 (mkRat 46486 10000) ++ ", " ++ toFixed6 (mkRat (-740628) 10000)
        ∧ ((⟨none, none, none, none⟩ : NominatimReversePayload).lat = none →
            r.lat = mkRat 46486 10000)
        ∧ ((⟨none, none, none, none⟩ : NominatimReversePayload).lon = none →
            r.lng = mkRat (-740628) 10000))
    ∧ toFixed6 (mkRat 46486 10000) ++ ", " ++ toFixed6 (mkRat (-740628) 10000) =
        "4.648600, -74.062800" :=
  ⟨reverseWithNominatim_fallbacks cfgBoth netC8 (mkRat 46486 10000) (mkRat (-740628) 10000)
      ⟨none, none, none, none⟩ (by decide) (by decide) (by decide) (by decide),
   by decide⟩

/-- C9: a successful commercial-provider reverse lookup returns a candidate
whose coordinates are exactly the caller-supplied inputs (the provider's
snapped location is never used) and whose label is the first result's
formatted address. -/
theorem reverseWithGoogle_echoes_input (cfg : Config) (net : NetworkOracle) (lat lng : Rat)
    (result : GoogleResult) (rest : List GoogleResult)
    (hkey : truthy cfg.VITE_GOOGLE_KEY = true)
    (hok : net.googleReverseResp.ok = true)
    (hstatus : net.googleReverseResp.body.status = some "OK")
    (hres : net.googleReverseResp.body.results.getD [] = result :: rest) :
    (reverseWithGoogle cfg net lat lng).2 = Except.ok (some
      { id := match result.place_id with
          | some pid => pid
          | none => ratTemplate lat ++ "," ++ ratTemplate lng
        label := result.formatted_address
        lat := lat
        lng := lng
        raw := RawPayload.googleResult result
        provider := Provider.google
        placeId := result.place_id }) := by
  simp [reverseWithGoogle, hkey, hok, hstatus, hres]

def netC9 : NetworkOracle :=
  ⟨⟨true, 200, []⟩, ⟨true, 200, none⟩,
   ⟨true, 200, ⟨some "OK", none⟩⟩,
   fun _ => detailOkA,
   ⟨true, 200, ⟨some "OK", some [gResultA]⟩⟩⟩

theorem reverseWithGoogle_echoes_input_witness :
    (reverseWithGoogle cfgBoth netC9 (mkRat 47 10) (mkRat (-741) 10)).2 = Except.ok (some
      { id := "gA"
        label := "Calle 100, Bogotá"
        lat := mkRat 47 10
        lng := mkRat (-741) 10
        raw := RawPayload.googleResult gResultA
        provider := Provider.google
        placeId := some "gA" }) :=
  reverseWithGoogle_echoes_input cfgBoth netC9 (mkRat 47 10) (mkRat (-741) 10) gResultA []
    (by decide) (by decide) (by decide) (by decide)

def itemDup : NominatimItem := ⟨none, "4.5", "-74.1", "Puente, Bogotá"⟩

def netC6 : NetworkOracle :=
  ⟨⟨true, 200, [itemDup, itemDup]⟩, ⟨true, 200, none⟩,
   ⟨true, 200, ⟨some "OK", none⟩⟩,
   fun _ => detailOkA,
   detailOkA⟩

/-- C6 fails as stated: two payload items that both lack a native place id
and carry the same coordinate strings yield the same derived identifier, so
a batch can contain duplicate identifiers. -/
theorem nominatim_duplicate_ids_counterexample :
    (searchWithNominatim cfgBoth netC6 "puente" 5).2 =
        Except.ok [nominatimConvert itemDup, nominatimConvert itemDup]
      ∧ (nominatimConvert itemDup).id = "4.5,-74.1"
      ∧ ¬ ([nominatimConvert itemDup, nominatimConvert itemDup].map
            (fun r => r.id)).Nodup := by
  refine ⟨by decide, by decide, by decide⟩

/-- C6 amended: each candidate's identifier is exactly the provider-derived
string (native id, else the coordinate pair, for the free provider; the
prediction's place id for the commercial provider), so the batch identifiers
are pairwise distinct, and non-empty, exactly when those provider-side
strings are — the code itself enforces neither. -/
theorem batch_ids_from_provider_ids (cfg : Config) (net : NetworkOracle) (q : String)
    (limit : Nat) :
    (∀ rs, (searchWithNominatim cfg net q limit).2 = Except.ok rs →
      rs.map (fun r => r.id) = net.nominatimSearchResp.body.map nominatimId
        ∧ ((net.nominatimSearchResp.body.map nominatimId).Nodup →
            (rs.map (fun r => r.id)).Nodup)
        ∧ ((∀ item ∈ net.nominatimSearchResp.body, nominatimId item ≠ "") →
            ∀ r ∈ rs, r.id ≠ ""))
    ∧ (∀ gs, (searchWithGoogle cfg net q limit).2 = Except.ok gs →
      gs.map (fun r => r.id) =
          ((net.googleAutocompleteResp.body.predictions.getD []).take limit).map
            (fun p => p.place_id)
        ∧ ((((net.googleAutocompleteResp.body.predictions.getD []).take limit).map
              (fun p => p.place_id)).Nodup → (gs.map (fun r => r.id)).Nodup)
        ∧ ((∀ p ∈ (net.googleAutocompleteResp.body.predictions.getD []).take limit,
              p.place_id ≠ "") → ∀ r ∈ gs, r.id ≠ "")) := by
  constructor
  · intro rs h
    have hrs := searchWithNominatim_ok cfg net q limit rs h
    have hmap : rs.map (fun r => r.id) = net.nominatimSearchResp.body.map nominatimId := by
      rw [hrs, List.map_map]
      rfl
    refine ⟨hmap, fun hnd => hmap ▸ hnd, fun hne r hr => ?_⟩
    rw [hrs] at hr
    obtain ⟨item, hitem, hconv⟩ := List.mem_map.mp hr
    rw [← hconv]
    exact hne item hitem
  · intro gs h
    have hmap := collectDetails_ok_ids net _ gs (searchWithGoogle_ok_collect cfg net q limit gs h)
    refine ⟨hmap, fun hnd => hmap ▸ hnd, fun hne r hr => ?_⟩
    have : r.id ∈ gs.map (fun r => r.id) := List.mem_map_of_mem (fun r => r.id) hr
    rw [hmap] at this
    obtain ⟨p, hp, hpid⟩ := List.mem_map.mp this
    rw [← hpid]
    exact hne p hp

theorem batch_ids_from_provider_ids_witness :
    ([nominatimConvert itemA, nominatimConvert itemB].map (fun r => r.id) =
        netC3.nominatimSearchResp.body.map nominatimId)
    ∧ ([nominatimConvert itemA, nominatimConvert itemB].map (fun r => r.id)).Nodup
    ∧ (googleBatchC3.map (fun r => r.id) =
        ((netC3.googleAutocompleteResp.body.predictions.getD []).take 5).map
          (fun p => p.place_id))
    ∧ (googleBatchC3.map (fun r => r.id)).Nodup :=
  ⟨((batch_ids_from_provider_ids cfgBoth netC3 "Cra 7" 5).1
      [nominatimConvert itemA, nominatimConvert itemB] (by decide)).1,
   ((batch_ids_from_provider_ids cfgBoth netC3 "Cra 7" 5).1
      [nominatimConvert itemA, nominatimConvert itemB] (by decide)).2.1 (by decide),
   ((batch_ids_from_provider_ids cfgBoth netC3 "Cra 7" 5).2 googleBatchC3 (by decide)).1,
   ((batch_ids_from_provider_ids cfgBoth netC3 "Cra 7" 5).2 googleBatchC3 (by decide)).2.1
      (by decide)⟩

end GeoBogota
